import Mathlib

/-!
Shallow embedding of `haproxy/line.py`: the HAProxy log-line grammar
(`HAPROXY_LINE_REGEX`), the quoted-request grammar (`HTTP_REQUEST_REGEX`),
the timestamp parser (`datetime.strptime` with format
`%d/%b/%Y:%H:%M:%S.%f`), the `Line` record builder, and the derived
queries (`is_https`, `ip`, `is_within_time_frame`).

Python regexes are embedded as an explicit AST (`RE`) with a backtracking
matcher (`mat`) that mirrors the `re` module's leftmost, greedy,
left-alternative-first search order for the constructs the two patterns
use.  Strings are handled as lists of Unicode code points.  Python
attribute values (which may hold `None`, `str`, `int`, `datetime`, or a
`LineType`) are embedded as the `Value` sum type.  The builder returns
`Except`: an `error` models an uncaught Python exception escaping
`Line.__init__` (e.g. `ValueError` from `strptime` or `int`).
-/

namespace HaproxyLog

/-- LineType enum from `line.py` (`HTTP = 0`, `TCP = 1`). -/
inductive LineType where
  | HTTP
  | TCP
deriving DecidableEq, Repr

/-- Naive proleptic-Gregorian datetime, mirroring the fields of a Python
`datetime` produced by `strptime` (microsecond precision). -/
structure PyDateTime where
  year : Nat
  month : Nat
  day : Nat
  hour : Nat
  minute : Nat
  second : Nat
  usec : Nat
deriving DecidableEq, Repr

/-- Embedding of the values a `Line` attribute can hold at runtime:
`None`, a string, an int, a parsed datetime, or a `LineType`. -/
inductive Value where
  | none
  | str (s : String)
  | int (i : Int)
  | dt (d : PyDateTime)
  | lineType (t : LineType)
deriving DecidableEq, Repr

/-- Python `datetime` values compare field-lexicographically; for datetimes
with in-range fields this linear key realizes exactly that order. -/
def PyDateTime.key (d : PyDateTime) : Nat :=
  ((((((d.year * 13 + d.month) * 32 + d.day) * 25 + d.hour) * 61 + d.minute)
      * 62 + d.second) * 1000000 + d.usec)

/-- Strict `<` on datetimes (Python `datetime.__lt__`). -/
def PyDateTime.lt (a b : PyDateTime) : Bool := a.key < b.key

/-- Decimal digit test on a code point. -/
def isDigitCode (c : Nat) : Bool := 48 ≤ c && c ≤ 57

/-- Numeric value of a decimal digit code point. -/
def digitVal (c : Nat) : Nat := c - 48

/-- Accumulate decimal digits; fails on a non-digit. -/
def digitsToNatAux : List Nat → Nat → Option Nat
  | [], acc => Option.some acc
  | c :: rest, acc =>
      if isDigitCode c then digitsToNatAux rest (acc * 10 + digitVal c)
      else Option.none

/-- Value of a non-empty all-digit code-point list. -/
def digitsToNat : List Nat → Option Nat
  | [] => Option.none
  | l => digitsToNatAux l 0

/-- Python `int(s)` restricted to the inputs the log grammar produces: an
optional single `+` or `-` sign followed by decimal digits.  (`int` also
strips whitespace and accepts underscores; those inputs cannot reach the
builder because every converted capture matched `-?\d+` or `\+?\d+`.)
Returns `none` where Python raises `ValueError`. -/
def pyIntCodes : List Nat → Option Int
  | [] => Option.none
  | c :: rest =>
      if c = 45 then (digitsToNat rest).map (fun n => -(n : Int))
      else if c = 43 then (digitsToNat rest).map (fun n => (n : Int))
      else (digitsToNat (c :: rest)).map (fun n => (n : Int))

/-- Code points of a string. -/
def strCodes (s : String) : List Nat := s.data.map Char.toNat

/-- Python `int` on a string argument. -/
def pyIntS (s : String) : Option Int := pyIntCodes (strCodes s)

/-! ### `datetime.strptime(s, '%d/%b/%Y:%H:%M:%S.%f')`

CPython's `_strptime` compiles each directive to an alternation tried in
a fixed order (`%d` is `3[01]|[12]\d|0[1-9]|[1-9]`, `%H` is
`2[0-3]|[0-1]\d|\d`, `%M` is `[0-5]\d|\d`, `%S` is `6[0-1]|[0-5]\d|\d`,
`%Y` is four digits, `%b` a case-insensitive month abbreviation, `%f` one
to six digits), requires the whole string to be consumed, and then builds
a `datetime`, which validates the calendar (day vs. month length, second
at most 59).  Each directive here is followed by a literal delimiter, so
the two-digit-first backtracking collapses to the deterministic reading
below. -/

/-- Two-digit day acceptability per the `%d` pattern (`01`-`31`). -/
def dayTwoDigitOk (d1 d2 : Nat) : Bool :=
  (d1 = 3 && d2 ≤ 1) || d1 = 1 || d1 = 2 || (d1 = 0 && 1 ≤ d2)

/-- Parse `%d`: a two-digit day `01`-`31` if possible, else one digit `1`-`9`. -/
def parseDay : List Nat → Option (Nat × List Nat)
  | c1 :: c2 :: rest =>
      if isDigitCode c1 && isDigitCode c2 && dayTwoDigitOk (digitVal c1) (digitVal c2) then
        Option.some (digitVal c1 * 10 + digitVal c2, rest)
      else if isDigitCode c1 && 1 ≤ digitVal c1 then Option.some (digitVal c1, c2 :: rest)
      else Option.none
  | [c1] =>
      if isDigitCode c1 && 1 ≤ digitVal c1 then Option.some (digitVal c1, [])
      else Option.none
  | [] => Option.none

/-- Lowercase an ASCII letter code point. -/
def lowerCode (c : Nat) : Nat := if 65 ≤ c && c ≤ 90 then c + 32 else c

/-- Month number of a lowercased three-letter abbreviation. -/
def monthOfAbbrev : List Nat → Option Nat
  | [106, 97, 110] => Option.some 1   -- jan
  | [102, 101, 98] => Option.some 2   -- feb
  | [109, 97, 114] => Option.some 3   -- mar
  | [97, 112, 114] => Option.some 4   -- apr
  | [109, 97, 121] => Option.some 5   -- may
  | [106, 117, 110] => Option.some 6  -- jun
  | [106, 117, 108] => Option.some 7  -- jul
  | [97, 117, 103] => Option.some 8   -- aug
  | [115, 101, 112] => Option.some 9  -- sep
  | [111, 99, 116] => Option.some 10  -- oct
  | [110, 111, 118] => Option.some 11 -- nov
  | [100, 101, 99] => Option.some 12  -- dec
  | _ => Option.none

/-- Parse `%b`: a case-insensitive three-letter month abbreviation. -/
def parseMonth : List Nat → Option (Nat × List Nat)
  | c1 :: c2 :: c3 :: rest =>
      (monthOfAbbrev [lowerCode c1, lowerCode c2, lowerCode c3]).map (fun m => (m, rest))
  | _ => Option.none

/-- Parse `%Y`: exactly four digits. -/
def parseYear : List Nat → Option (Nat × List Nat)
  | c1 :: c2 :: c3 :: c4 :: rest =>
      if isDigitCode c1 && isDigitCode c2 && isDigitCode c3 && isDigitCode c4 then
        Option.some (((digitVal c1 * 10 + digitVal c2) * 10 + digitVal c3) * 10 + digitVal c4,
          rest)
      else Option.none
  | _ => Option.none

/-- Parse a two-digit-preferred field bounded by `hi` (`%H`, `%M`, `%S`:
two digits whose value is at most `hi`, else a single digit). -/
def parseTwoDigitField (hi : Nat) : List Nat → Option (Nat × List Nat)
  | c1 :: c2 :: rest =>
      if isDigitCode c1 && isDigitCode c2 && digitVal c1 * 10 + digitVal c2 ≤ hi then
        Option.some (digitVal c1 * 10 + digitVal c2, rest)
      else if isDigitCode c1 then Option.some (digitVal c1, c2 :: rest)
      else Option.none
  | [c1] => if isDigitCode c1 then Option.some (digitVal c1, []) else Option.none
  | [] => Option.none

/-- Parse `%f`: one to six digits, right-padded with zeros to microseconds. -/
def parseUsec : List Nat → Option (Nat × List Nat)
  | l =>
      let digs := l.takeWhile isDigitCode
      let rest := l.dropWhile isDigitCode
      let digs6 := digs.take 6
      let rest6 := digs.drop 6 ++ rest
      if digs6.length = 0 then Option.none
      else
        Option.some
          ((digitsToNatAux digs6 0).getD 0 * 10 ^ (6 - digs6.length), rest6)

/-- Expect one literal code point. -/
def parseLit (c : Nat) : List Nat → Option (List Nat)
  | [] => Option.none
  | c1 :: rest => if c1 = c then Option.some rest else Option.none

/-- Gregorian leap-year test (as in Python's `calendar`/`datetime`). -/
def isLeap (y : Nat) : Bool := (y % 4 = 0 && y % 100 ≠ 0) || y % 400 = 0

/-- Days in a month (Gregorian). -/
def daysInMonth (y m : Nat) : Nat :=
  if m = 2 then (if isLeap y then 29 else 28)
  else if m = 4 || m = 6 || m = 9 || m = 11 then 30
  else 31

/-- The `datetime(...)` constructor's range validation applied to the
fields `strptime` extracted. -/
def datetimeOk (d : PyDateTime) : Bool :=
  1 ≤ d.year && d.year ≤ 9999 && 1 ≤ d.month && d.month ≤ 12 &&
    1 ≤ d.day && d.day ≤ daysInMonth d.year d.month &&
    d.hour ≤ 23 && d.minute ≤ 59 && d.second ≤ 59 && d.usec ≤ 999999

/-- Model of `datetime.strptime(s, '%d/%b/%Y:%H:%M:%S.%f')`: `none`
where Python raises `ValueError` (either unmatched format or an
out-of-range calendar value). -/
def strptime (s : String) : Option PyDateTime :=
  match parseDay (strCodes s) with
  | Option.none => Option.none
  | Option.some (day, r1) =>
    match parseLit 47 r1 with
    | Option.none => Option.none
    | Option.some r2 =>
      match parseMonth r2 with
      | Option.none => Option.none
      | Option.some (month, r3) =>
        match parseLit 47 r3 with
        | Option.none => Option.none
        | Option.some r4 =>
          match parseYear r4 with
          | Option.none => Option.none
          | Option.some (year, r5) =>
            match parseLit 58 r5 with
            | Option.none => Option.none
            | Option.some r6 =>
              match parseTwoDigitField 23 r6 with
              | Option.none => Option.none
              | Option.some (hour, r7) =>
                match parseLit 58 r7 with
                | Option.none => Option.none
                | Option.some r8 =>
                  match parseTwoDigitField 59 r8 with
                  | Option.none => Option.none
                  | Option.some (minute, r9) =>
                    match parseLit 58 r9 with
                    | Option.none => Option.none
                    | Option.some r10 =>
                      match parseTwoDigitField 61 r10 with
                      | Option.none => Option.none
                      | Option.some (second, r11) =>
                        match parseLit 46 r11 with
                        | Option.none => Option.none
                        | Option.some r12 =>
                          match parseUsec r12 with
                          | Option.none => Option.none
                          | Option.some (usec, r13) =>
                            match r13 with
                            | _ :: _ => Option.none
                            | [] =>
                              let d : PyDateTime :=
                                { year := year, month := month, day := day,
                                  hour := hour, minute := minute,
                                  second := second, usec := usec }
                              if datetimeOk d then Option.some d else Option.none

/-! ### Regex AST and backtracking matcher

The AST covers exactly the constructs `HAPROXY_LINE_REGEX` and
`HTTP_REQUEST_REGEX` use: character classes (also covering literals and
`.`/`\d`/`\s`/`\w`/negated classes), concatenation, alternation, greedy
`*`/`+`/`?`, named capturing groups, and the `\Z` end anchor.  The
matcher is continuation-passing and explores candidates in Python's
order: greedy repetition takes the longest repetition first, alternation
tries the left alternative first, and the first full success wins.  `\A`
only occurs at the very start of the pattern, where it is vacuous under
`re.match`, and is dropped. -/

/-- Regex AST (code-point alphabet). -/
inductive RE where
  | eps
  | eos
  | cls (p : Nat → Bool)
  | seq (a b : RE)
  | alt (a b : RE)
  | star (a : RE)
  | grp (g : Nat) (a : RE)

/-- Greedy `?`. -/
def RE.opt (a : RE) : RE := .alt a .eps

/-- Greedy `+`. -/
def RE.plus (a : RE) : RE := .seq a (.star a)

/-- Concatenation of a list of regexes. -/
def cat : List RE → RE
  | [] => .eps
  | [r] => r
  | r :: rest => .seq r (cat rest)

/-- Node count, used to pick a sufficient fuel. -/
def RE.size : RE → Nat
  | .eps => 1
  | .eos => 1
  | .cls _ => 1
  | .seq a b => a.size + b.size + 1
  | .alt a b => a.size + b.size + 1
  | .star a => a.size + 1
  | .grp _ a => a.size + 1

/-- Capture environment: group id to captured code points, most recent
first (a later capture of the same group shadows an earlier one, as in
Python where a repeated group keeps its last match). -/
abbrev Env := List (Nat × List Nat)

/-- Backtracking matcher in continuation-passing style.  `mat fuel r s m k`
matches `r` against a prefix of `s` under environment `m` and passes the
rest and the extended environment to `k`; the first success in Python's
preference order is returned.  The fuel only bounds nesting depth plus
repetition count; every starred subpattern of the embedded regexes
consumes at least one code point per iteration (the guard below refuses a
non-consuming iteration), so a fuel of `(size + 2) * (length + 2)` is
never exhausted on them. -/
def mat : Nat → RE → List Nat → Env → (List Nat → Env → Option Env) → Option Env
  | 0, _, _, _, _ => Option.none
  | _ + 1, .eps, s, m, k => k s m
  | _ + 1, .eos, s, m, k =>
      match s with
      | [] => k [] m
      | _ :: _ => Option.none
  | _ + 1, .cls p, s, m, k =>
      match s with
      | [] => Option.none
      | c :: rest => if p c then k rest m else Option.none
  | n + 1, .seq a b, s, m, k => mat n a s m (fun s2 m2 => mat n b s2 m2 k)
  | n + 1, .alt a b, s, m, k =>
      match mat n a s m k with
      | Option.some r => Option.some r
      | Option.none => mat n b s m k
  | n + 1, .star a, s, m, k =>
      match mat n a s m (fun s2 m2 =>
          if s2.length < s.length then mat n (.star a) s2 m2 k
          else Option.none) with
      | Option.some r => Option.some r
      | Option.none => k s m
  | n + 1, .grp g a, s, m, k =>
      mat n a s m (fun s2 m2 => k s2 ((g, s.take (s.length - s2.length)) :: m2))

/-- `re.Pattern.match`: anchored at the start, a prefix match suffices
(the patterns that need the full line end in `\Z` themselves). -/
def reMatch (r : RE) (s : String) : Option Env :=
  mat ((r.size + 2) * (s.length + 2)) r (strCodes s) [] (fun _ m => Option.some m)

/-- Group lookup on a match: `none` models a group that did not
participate in the match (Python `matches.group(g) is None`). -/
def envCodes (m : Env) (g : Nat) : Option (List Nat) :=
  (m.find? (fun p => p.1 = g)).map (fun p => p.2)

/-- String form of a capture group. -/
def envStr (m : Env) (g : Nat) : Option String :=
  (envCodes m g).map (fun l => String.mk (l.map Char.ofNat))

/-- Capture group as a Python attribute value (`None` or `str`). -/
def envVal (m : Env) (g : Nat) : Value :=
  match envStr m g with
  | Option.some s => Value.str s
  | Option.none => Value.none

/-! ### Character classes

ASCII readings of Python's `\d`, `\s`, `\w` and `.`; every input the
claims exercise is ASCII, where these agree with Python's Unicode
classes. -/

/-- Python `.` (any character except a newline). -/
def dAny (c : Nat) : Bool := c ≠ 10

/-- Python `\s` (ASCII part). -/
def dSpace (c : Nat) : Bool := c = 32 || (9 ≤ c && c ≤ 13)

/-- Python `\w` (ASCII part). -/
def dWord (c : Nat) : Bool :=
  isDigitCode c || (65 ≤ c && c ≤ 90) || (97 ≤ c && c ≤ 122) || c = 95

/-- Class matching one literal character. -/
def chc (c : Char) : RE := .cls (fun n => n = c.toNat)

/-- Class matching one literal character given by code point. -/
def chn (c : Nat) : RE := .cls (fun n => n = c)

/-- `\d+`. -/
def reDigits : RE := .plus (.cls isDigitCode)

/-- `\s+`. -/
def reSpaces : RE := .plus (.cls dSpace)

/-- `.*`. -/
def dotStar : RE := .star (.cls dAny)

/-- `.+`. -/
def dotPlus : RE := .plus (.cls dAny)

/-- `-?\d+`. -/
def reNegNum : RE := .seq (.opt (chc '-')) reDigits

/-- `\+?\d+`. -/
def rePlusNum : RE := .seq (.opt (chc '+')) reDigits

/-! ### Group ids for `HAPROXY_LINE_REGEX` -/

def gClientIp : Nat := 1
def gClientPort : Nat := 2
def gAcceptDate : Nat := 3
def gHttpFrontendName : Nat := 4
def gHttpBackendName : Nat := 5
def gHttpServerName : Nat := 6
def gHttpTq : Nat := 7
def gHttpTw : Nat := 8
def gHttpTc : Nat := 9
def gHttpTr : Nat := 10
def gHttpTa : Nat := 11
def gHttpStatusCode : Nat := 12
def gHttpBytesRead : Nat := 13
def gTcpFrontendName : Nat := 14
def gTcpBackendName : Nat := 15
def gTcpServerName : Nat := 16
def gTcpTw : Nat := 17
def gTcpTc : Nat := 18
def gTcpTt : Nat := 19
def gTcpBytesRead : Nat := 20
def gActconn : Nat := 21
def gFeconn : Nat := 22
def gBeconn : Nat := 23
def gSrvConn : Nat := 24
def gRetries : Nat := 25
def gSrvQueue : Nat := 26
def gBackendQueue : Nat := 27
def gCapturedRequestHeaders : Nat := 28
def gCapturedResponseHeaders : Nat := 29
def gHeaders : Nat := 30
def gHttpRequest : Nat := 31

/-! ### Group ids for `HTTP_REQUEST_REGEX` -/

def gMethod : Nat := 101
def gPath : Nat := 102
def gProtocol : Nat := 103

/-! ### `HAPROXY_LINE_REGEX`, piece by piece in source order -/

/-- `(\A.*\]:\s+)?` : ignore the syslog prefix if present (`\A` is
vacuous under `re.match` and the group is not inspected, so the
non-capturing embedding is faithful). -/
def reSyslog : RE := .opt (cat [dotStar, chn 93, chc ':', reSpaces])

/-- `[a-fA-F\d+\.:]` : the client-address class. -/
def clsClientIp (c : Nat) : Bool :=
  (97 ≤ c && c ≤ 102) || (65 ≤ c && c ≤ 70) || isDigitCode c ||
    c = 43 || c = 46 || c = 58

/-- `(?P<client_ip>[a-fA-F\d+\.:]+):(?P<client_port>\d+)\s+`. -/
def reClientAddr : RE :=
  cat [.grp gClientIp (.plus (.cls clsClientIp)), chc ':',
    .grp gClientPort reDigits, reSpaces]

/-- `\[(?P<accept_date>.+)\]\s+`. -/
def reAcceptDate : RE :=
  cat [chn 91, .grp gAcceptDate dotPlus, chn 93, reSpaces]

/-- The HTTP sub-shape: frontend, backend/server, the five timers
`Tq/Tw/Tc/Tr/Ta`, status code and bytes read. -/
def reHttpShape : RE :=
  cat [.grp gHttpFrontendName dotStar, reSpaces,
    .grp gHttpBackendName dotStar, chc '/',
    .grp gHttpServerName dotStar, reSpaces,
    .grp gHttpTq reNegNum, chc '/', .grp gHttpTw reNegNum, chc '/',
    .grp gHttpTc reNegNum, chc '/', .grp gHttpTr reNegNum, chc '/',
    .grp gHttpTa rePlusNum, reSpaces,
    .grp gHttpStatusCode reNegNum, reSpaces,
    .grp gHttpBytesRead rePlusNum]

/-- The TCP sub-shape: frontend, backend/server, the three timers
`Tw/Tc/Tt`, bytes read. -/
def reTcpShape : RE :=
  cat [.grp gTcpFrontendName dotStar, reSpaces,
    .grp gTcpBackendName dotStar, chc '/',
    .grp gTcpServerName dotStar, reSpaces,
    .grp gTcpTw reNegNum, chc '/', .grp gTcpTc reNegNum, chc '/',
    .grp gTcpTt rePlusNum, reSpaces,
    .grp gTcpBytesRead rePlusNum]

/-- `.*\s+` : termination state and flags, consumed but not modeled. -/
def reFlagsSkip : RE := .seq dotStar reSpaces

/-- `(?P<actconn>\d+)\/(?P<feconn>\d+)\/(?P<beconn>\d+)\/(?P<srv_conn>\d+)\/(?P<retries>\+?\d+)`. -/
def reCounters : RE :=
  cat [.grp gActconn reDigits, chc '/', .grp gFeconn reDigits, chc '/',
    .grp gBeconn reDigits, chc '/', .grp gSrvConn reDigits, chc '/',
    .grp gRetries rePlusNum]

/-- `(\s+(?P<srv_queue>\d+)\/(?P<backend_queue>\d+))` : the queue pair,
required (the group carries no `?`). -/
def reQueues : RE :=
  cat [reSpaces, .grp gSrvQueue reDigits, chc '/', .grp gBackendQueue reDigits]

/-- The three header alternatives inside the optional tail:
`{req} {resp}` pair, single `{headers}`, or bare whitespace. -/
def reHeadersAlt : RE :=
  .alt (cat [chn 123, .grp gCapturedRequestHeaders dotStar, chn 125, reSpaces,
      chn 123, .grp gCapturedResponseHeaders dotStar, chn 125, reSpaces])
    (.alt (cat [chn 123, .grp gHeaders dotStar, chn 125, reSpaces])
      reSpaces)

/-- `"(?P<http_request>[^\"]+)"?` : quoted request, closing quote
optional to tolerate truncated lines. -/
def reQuotedRequest : RE :=
  cat [chn 34, .grp gHttpRequest (.plus (.cls (fun c => c ≠ 34))), .opt (chn 34)]

/-- The whole optional tail `(\s+(headers)?"request"?)?`. -/
def reTail : RE := .opt (cat [reSpaces, .opt reHeadersAlt, reQuotedRequest])

/-- The full line pattern around a given protocol sub-shape, ending in
`\Z`. -/
def haproxyCore (shape : RE) : RE :=
  cat [reSyslog, reClientAddr, reAcceptDate, shape, reFlagsSkip,
    reCounters, reQueues, reTail, .eos]

/-- `HAPROXY_LINE_REGEX` with the sub-shape alternation `(HTTP)|(TCP)`
in source order. -/
def HAPROXY_LINE_REGEX : RE := haproxyCore (.alt reHttpShape reTcpShape)

/-- Variant keeping only the HTTP sub-shape (for satisfiability of the
HTTP shape within a full-line match). -/
def haproxyHttpOnly : RE := haproxyCore reHttpShape

/-- Variant keeping only the TCP sub-shape. -/
def haproxyTcpOnly : RE := haproxyCore reTcpShape

/-- The path character class of `HTTP_REQUEST_REGEX` (the source class
contains a backtick, U+00C2, U+00B4, backslash, angle brackets, slash,
`\w`, and the listed punctuation). -/
def clsPathChar (c : Nat) : Bool :=
  c = 96 || c = 194 || c = 180 || c = 92 || c = 60 || c = 62 || c = 47 ||
    dWord c || c = 58 || c = 44 || c = 59 || c = 46 || c = 35 || c = 36 ||
    c = 33 || c = 63 || c = 61 || c = 38 || c = 64 || c = 37 || c = 43 ||
    c = 39 || c = 42 || c = 94 || c = 126 || c = 124 || c = 40 || c = 41 ||
    c = 91 || c = 93 || c = 123 || c = 125 || c = 45

/-- `HTTP_REQUEST_REGEX`: `(?P<method>\w+)\s+(?P<path>(/[...]*)+)`
followed by an optional `(\s+(?P<protocol>\w+/\d\.\d))?`. -/
def HTTP_REQUEST_REGEX : RE :=
  cat [.grp gMethod (.plus (.cls dWord)), reSpaces,
    .grp gPath (.plus (cat [chc '/', .star (.cls clsPathChar)])),
    .opt (cat [reSpaces,
      .grp gProtocol (cat [.plus (.cls dWord), chc '/', .cls isDigitCode,
        chc '.', .cls isDigitCode])])]

/-! ### The `Line` record

Field defaults mirror the class attributes of `Line` (all `None`).
`notices` collects the diagnostic `print` output of
`handle_bad_http_request`; `is_valid` is the boolean set by
`__init__`. -/

structure LineRec where
  log_type : Value := .none
  client_ip : Value := .none
  client_port : Value := .none
  raw_accept_date : Value := .none
  accept_date : Value := .none
  request_date : Value := .none
  frontend_name : Value := .none
  backend_name : Value := .none
  server_name : Value := .none
  time_wait_request : Value := .none
  time_wait_queues : Value := .none
  time_connect_server : Value := .none
  time_wait_response : Value := .none
  total_time : Value := .none
  status_code : Value := .none
  bytes_read : Value := .none
  captured_request_cookie : Value := .none
  captured_response_cookie : Value := .none
  termination_state : Value := .none
  connections_active : Value := .none
  connections_frontend : Value := .none
  connections_backend : Value := .none
  connections_server : Value := .none
  retries : Value := .none
  queue_server : Value := .none
  queue_backend : Value := .none
  captured_request_headers : Value := .none
  captured_response_headers : Value := .none
  raw_http_request : Value := .none
  http_request_method : Value := .none
  http_request_path : Value := .none
  http_request_protocol : Value := .none
  raw_line : Value := .none
  is_valid : Bool := false
  notices : List String := []
deriving DecidableEq, Repr

instance : Inhabited LineRec := ⟨{}⟩

/-- Python `int(...)` applied to a `matches.group(...)` result: raises
(`none`) on `None` (a `TypeError`) as well as on a non-numeric string (a
`ValueError`). -/
def pyIntV : Value → Option Int
  | .str s => pyIntS s
  | _ => Option.none

/-- `Line.handle_bad_http_request`: substitute the `'invalid'` sentinel
for the three request fields and print a notice unless the raw request is
the balancer's `<BADREQ>` placeholder. -/
def handle_bad_http_request (r : LineRec) : LineRec :=
  let r1 := { r with http_request_method := .str "invalid",
                     http_request_path := .str "invalid",
                     http_request_protocol := .str "invalid" }
  match r1.raw_http_request with
  | .str raw =>
      if raw = "<BADREQ>" then r1
      else { r1 with notices :=
        r1.notices ++ ["Could not process HTTP request " ++ raw] }
  | _ => { r1 with notices :=
      r1.notices ++ ["Could not process HTTP request None"] }

/-- `Line._parse_http_request`: match `HTTP_REQUEST_REGEX` against
`raw_http_request` and either store method, path and protocol or fall
back to `handle_bad_http_request`.  The caller only invokes this when
`raw_http_request` is a string; the final catch-all branch is
unreachable from the builder. -/
def parse_http_request (r : LineRec) : LineRec :=
  match r.raw_http_request with
  | .str raw =>
      (match reMatch HTTP_REQUEST_REGEX raw with
       | Option.some m =>
           { r with http_request_method := envVal m gMethod,
                    http_request_path := envVal m gPath,
                    http_request_protocol := envVal m gProtocol }
       | Option.none => handle_bad_http_request r)
  | _ => r

/-- The header-disambiguation statement of `_parse_http_fields`:
`if matches.group('headers') is not None:` overwrite
`captured_request_headers` with the single-group capture. -/
def headersOverride (m : Env) (r : LineRec) : LineRec :=
  match envVal m gHeaders with
  | .str h => { r with captured_request_headers := .str h }
  | _ => r

/-- The final statement of `_parse_http_fields`:
`if self.raw_http_request is not None: self._parse_http_request()`. -/
def requestStep (m : Env) (r : LineRec) : LineRec :=
  match envVal m gHttpRequest with
  | .str _ => parse_http_request r
  | _ => r

/-- The first three assignments of `_parse_http_fields`: the routing
names, straight from their captures. -/
def httpNames (m : Env) (r : LineRec) : LineRec :=
  { r with frontend_name := envVal m gHttpFrontendName,
           backend_name := envVal m gHttpBackendName,
           server_name := envVal m gHttpServerName }

/-- The timer/outcome assignments of `_parse_http_fields`: `Tq/Tw/Tc/Tr`
already converted by `int(...)`, `Ta`, status code and bytes read as
captured strings. -/
def httpTimers (m : Env) (tq tw tc tr : Int) (r : LineRec) : LineRec :=
  { r with time_wait_request := .int tq,
           time_wait_queues := .int tw,
           time_connect_server := .int tc,
           time_wait_response := .int tr,
           total_time := envVal m gHttpTa,
           status_code := envVal m gHttpStatusCode,
           bytes_read := envVal m gHttpBytesRead }

/-- The two header-capture assignments of `_parse_http_fields`. -/
def httpHeadersSet (m : Env) (r : LineRec) : LineRec :=
  { r with captured_request_headers := envVal m gCapturedRequestHeaders,
           captured_response_headers := envVal m gCapturedResponseHeaders }

/-- The `raw_http_request` assignment of `_parse_http_fields`. -/
def rawRequestSet (m : Env) (r : LineRec) : LineRec :=
  { r with raw_http_request := envVal m gHttpRequest }

/-- `Line._parse_http_fields`, statement by statement: names, the four
timers through `int(...)` (whose `ValueError` aborts construction),
`Ta`/status/bytes as captured, header captures with the single-group
override, the raw request, then the request sub-parse when a request was
captured. -/
def parse_http_fields (m : Env) (r : LineRec) : Except String LineRec :=
  let r := httpNames m r
  match pyIntV (envVal m gHttpTq), pyIntV (envVal m gHttpTw),
        pyIntV (envVal m gHttpTc), pyIntV (envVal m gHttpTr) with
  | Option.some tq, Option.some tw, Option.some tc, Option.some tr =>
      let r := httpTimers m tq tw tc tr r
      let r := httpHeadersSet m r
      let r := headersOverride m r
      let r := rawRequestSet m r
      .ok (requestStep m r)
  | _, _, _, _ => .error "ValueError: int"

/-- `Line._parse_tcp_fields`: names as captured, the three timers
`Tw/Tc/Tt` through `int(...)`, bytes read as the captured string. -/
def parse_tcp_fields (m : Env) (r : LineRec) : Except String LineRec :=
  let r := { r with frontend_name := envVal m gTcpFrontendName,
                    backend_name := envVal m gTcpBackendName,
                    server_name := envVal m gTcpServerName }
  match pyIntV (envVal m gTcpTw), pyIntV (envVal m gTcpTc),
        pyIntV (envVal m gTcpTt) with
  | Option.some tw, Option.some tc, Option.some tt =>
      .ok { r with time_wait_queues := .int tw,
                   time_connect_server := .int tc,
                   total_time := .int tt,
                   bytes_read := envVal m gTcpBytesRead }
  | _, _, _ => .error "ValueError: int"

/-- `Line._parse_protocol_specific_fields`: dispatch on the presence of
the HTTP frontend-name capture, then the five connection counters as
captured strings and the queue pair through `int(...)`. -/
def parse_protocol_specific_fields (m : Env) (r : LineRec) : Except String LineRec :=
  match (match envVal m gHttpFrontendName with
         | .str _ => parse_http_fields m { r with log_type := .lineType .HTTP }
         | _ => parse_tcp_fields m { r with log_type := .lineType .TCP }) with
  | .error e => .error e
  | .ok r =>
      let r := { r with connections_active := envVal m gActconn,
                        connections_frontend := envVal m gFeconn,
                        connections_backend := envVal m gBeconn,
                        connections_server := envVal m gSrvConn,
                        retries := envVal m gRetries }
      match pyIntV (envVal m gSrvQueue), pyIntV (envVal m gBackendQueue) with
      | Option.some qs, Option.some qb =>
          .ok { r with queue_server := .int qs, queue_backend := .int qb }
      | _, _ => .error "ValueError: int"

/-- `Line._parse_line`: `False` without touching the record when the line
pattern does not match, otherwise client address, accept date (a
`strptime` failure raises out of the constructor), protocol-specific
fields, and `True`. -/
def parse_line (line : String) (r : LineRec) : Except String (Bool × LineRec) :=
  match reMatch HAPROXY_LINE_REGEX line with
  | Option.none => .ok (false, r)
  | Option.some m =>
      match pyIntV (envVal m gClientPort) with
      | Option.none => .error "ValueError: int"
      | Option.some port =>
          let r := { r with client_ip := envVal m gClientIp,
                            client_port := .int port }
          match envVal m gAcceptDate with
          | .str rawd =>
              (match strptime rawd with
               | Option.some d =>
                   let r := { r with raw_accept_date := .str rawd,
                                     accept_date := .dt d,
                                     request_date := .dt d }
                   (match parse_protocol_specific_fields m r with
                    | .ok r => .ok (true, r)
                    | .error e => .error e)
               | Option.none =>
                   .error "ValueError: time data does not match format")
          | _ => .error "TypeError: strptime"

/-- `Line.__init__`: store the raw line, run `_parse_line`, store its
boolean as `is_valid`.  An `error` is an exception escaping the
constructor. -/
def lineInit (line : String) : Except String LineRec :=
  let r : LineRec := { raw_line := .str line }
  match parse_line line r with
  | .ok (v, r) => .ok { r with is_valid := v }
  | .error e => .error e

/-- The record produced for a line, defaulting on a raised exception;
used to name concrete parsed records in closed statements. -/
def recOf (line : String) : LineRec :=
  match lineInit line with
  | .ok r => r
  | .error _ => {}

/-- Does `hay` begin with `needle`? -/
def beginsWith : List Nat → List Nat → Bool
  | [], _ => true
  | _ :: _, [] => false
  | a :: as, b :: bs => a = b && beginsWith as bs

/-- Python's `needle in hay` test on strings: contiguous substring. -/
def containsSub : List Nat → List Nat → Bool
  | needle, [] => beginsWith needle []
  | needle, c :: rest => beginsWith needle (c :: rest) || containsSub needle rest

/-- The `Line.is_https` property: a substring test of `':443'` against
`http_request_path`, which raises a `TypeError` when that attribute is
still `None` (or anything but a string). -/
def is_https (r : LineRec) : Except String Bool :=
  match r.http_request_path with
  | .str p => .ok (containsSub (strCodes ":443") (strCodes p))
  | _ => .error "TypeError: argument of type NoneType is not iterable"

/-- Python `s.split('|')` on code points: always returns at least one
(possibly empty) token. -/
def splitOnPipe : List Nat → List (List Nat)
  | [] => [[]]
  | c :: rest =>
      let r := splitOnPipe rest
      if c = 124 then [] :: r
      else
        match r with
        | t :: ts => (c :: t) :: ts
        | [] => [[c]]

/-- String form of one token. -/
def tokenStr (t : List Nat) : String := String.mk (t.map Char.ofNat)

/-- The `Line.ip` property: the first `|`-delimited token of
`captured_request_headers` when that attribute is not `None` and the
token is non-empty (truthy), else `client_ip`. -/
def lineIp (r : LineRec) : Value :=
  match r.captured_request_headers with
  | .str h =>
      (match splitOnPipe (strCodes h) with
       | [] => r.client_ip
       | t :: _ => if t = [] then r.client_ip else .str (tokenStr t))
  | _ => r.client_ip

/-- `Line.is_within_time_frame(start, end)`.  `not start` / `not end`
are `None` tests (a `datetime` is never falsy); the comparisons require
`accept_date` to be a `datetime`, raising otherwise. -/
def is_within_time_frame (r : LineRec) (start stop : Option PyDateTime) :
    Except String Bool :=
  match start with
  | Option.none => .ok true
  | Option.some s =>
      match r.accept_date with
      | .dt d =>
          if PyDateTime.lt d s then .ok false
          else
            match stop with
            | Option.none => .ok true
            | Option.some e => if PyDateTime.lt e d then .ok false else .ok true
      | _ => .error "TypeError: comparison with NoneType"

/-! ### Structural lemmas about the builder -/

/-- A capture value is always `None` or a string. -/
theorem envVal_cases (m : Env) (g : Nat) :
    envVal m g = Value.none ∨ ∃ s, envVal m g = Value.str s := by
  unfold envVal
  cases envStr m g with
  | none => exact Or.inl rfl
  | some s => exact Or.inr ⟨s, rfl⟩

/-- `_parse_http_request` only writes the three request fields and the
diagnostic output. -/
theorem parse_http_request_shape (x : LineRec) :
    ∃ me pa pr no, parse_http_request x =
      { x with http_request_method := me, http_request_path := pa,
               http_request_protocol := pr, notices := no } := by
  unfold parse_http_request handle_bad_http_request
  dsimp only
  repeat' split
  all_goals exact ⟨_, _, _, _, rfl⟩

/-- `handle_bad_http_request` on a record holding a raw request string:
sentinel fields, and a notice exactly when the request is not
`<BADREQ>`. -/
theorem handle_bad_fields (x : LineRec) (raw : String)
    (hx : x.raw_http_request = .str raw) :
    handle_bad_http_request x = { x with
      http_request_method := .str "invalid",
      http_request_path := .str "invalid",
      http_request_protocol := .str "invalid",
      notices := x.notices ++ (if raw = "<BADREQ>" then [] else
        ["Could not process HTTP request " ++ raw]) } := by
  unfold handle_bad_http_request
  dsimp only
  rw [hx]
  dsimp only
  split
  · simp only [List.append_nil]
  · rfl

/-- `_parse_http_request` on an unparseable captured request delegates to
`handle_bad_http_request`. -/
theorem parse_http_request_bad (x : LineRec) (raw : String)
    (hx : x.raw_http_request = .str raw)
    (hre : reMatch HTTP_REQUEST_REGEX raw = Option.none) :
    parse_http_request x = handle_bad_http_request x := by
  unfold parse_http_request
  rw [hx]
  dsimp only
  rw [hre]

/-- `_parse_http_request` on a parseable captured request stores the
three captures. -/
theorem parse_http_request_good (x : LineRec) (raw : String) (mm : Env)
    (hx : x.raw_http_request = .str raw)
    (hre : reMatch HTTP_REQUEST_REGEX raw = Option.some mm) :
    parse_http_request x = { x with
      http_request_method := envVal mm gMethod,
      http_request_path := envVal mm gPath,
      http_request_protocol := envVal mm gProtocol } := by
  unfold parse_http_request
  rw [hx]
  dsimp only
  rw [hre]

/-- `headersOverride` only writes `captured_request_headers`. -/
theorem headersOverride_shape (m : Env) (x : LineRec) :
    ∃ ch, headersOverride m x = { x with captured_request_headers := ch } := by
  unfold headersOverride
  split
  · exact ⟨_, rfl⟩
  · exact ⟨x.captured_request_headers, rfl⟩

/-- `requestStep` only writes the three request fields and the
diagnostic output. -/
theorem requestStep_shape (m : Env) (x : LineRec) :
    ∃ me pa pr no, requestStep m x =
      { x with http_request_method := me, http_request_path := pa,
               http_request_protocol := pr, notices := no } := by
  unfold requestStep
  split
  · exact parse_http_request_shape x
  · exact ⟨x.http_request_method, x.http_request_path,
      x.http_request_protocol, x.notices, rfl⟩

/-- `requestStep` without a captured request leaves the record alone. -/
theorem requestStep_none (m : Env) (x : LineRec)
    (h : envVal m gHttpRequest = Value.none) : requestStep m x = x := by
  unfold requestStep
  rw [h]

/-- `requestStep` on an unparseable captured request. -/
theorem requestStep_bad (m : Env) (x : LineRec) (req : String)
    (h1 : envVal m gHttpRequest = Value.str req)
    (h2 : x.raw_http_request = Value.str req)
    (h3 : reMatch HTTP_REQUEST_REGEX req = Option.none) :
    requestStep m x = handle_bad_http_request x := by
  unfold requestStep
  rw [h1]
  exact parse_http_request_bad x req h2 h3

/-- `requestStep` on a parseable captured request. -/
theorem requestStep_good (m : Env) (x : LineRec) (req : String) (mm : Env)
    (h1 : envVal m gHttpRequest = Value.str req)
    (h2 : x.raw_http_request = Value.str req)
    (h3 : reMatch HTTP_REQUEST_REGEX req = Option.some mm) :
    requestStep m x = { x with
      http_request_method := envVal mm gMethod,
      http_request_path := envVal mm gPath,
      http_request_protocol := envVal mm gProtocol } := by
  unfold requestStep
  rw [h1]
  exact parse_http_request_good x req mm h2 h3

/-- Success structure of `_parse_http_fields`: the four timers go through
`int(...)`, `Ta`/status/bytes stay as captured, `log_type` and `is_valid`
pass through, and the request fields follow the request sub-parse. -/
theorem phf_ok (m : Env) (r0 r : LineRec) (h : parse_http_fields m r0 = .ok r) :
    (∃ tq, pyIntV (envVal m gHttpTq) = Option.some tq ∧ r.time_wait_request = .int tq) ∧
    (∃ tw, pyIntV (envVal m gHttpTw) = Option.some tw ∧ r.time_wait_queues = .int tw) ∧
    (∃ tc, pyIntV (envVal m gHttpTc) = Option.some tc ∧ r.time_connect_server = .int tc) ∧
    (∃ tr, pyIntV (envVal m gHttpTr) = Option.some tr ∧ r.time_wait_response = .int tr) ∧
    r.total_time = envVal m gHttpTa ∧
    r.status_code = envVal m gHttpStatusCode ∧
    r.bytes_read = envVal m gHttpBytesRead ∧
    r.log_type = r0.log_type ∧
    r.is_valid = r0.is_valid ∧
    r.client_port = r0.client_port ∧
    r.raw_http_request = envVal m gHttpRequest ∧
    (envVal m gHttpRequest = Value.none →
       r.http_request_method = r0.http_request_method ∧
       r.http_request_path = r0.http_request_path ∧
       r.http_request_protocol = r0.http_request_protocol ∧
       r.notices = r0.notices) ∧
    (∀ req, envVal m gHttpRequest = Value.str req →
       reMatch HTTP_REQUEST_REGEX req = Option.none →
       r.http_request_method = .str "invalid" ∧
       r.http_request_path = .str "invalid" ∧
       r.http_request_protocol = .str "invalid" ∧
       r.notices = r0.notices ++ (if req = "<BADREQ>" then [] else
         ["Could not process HTTP request " ++ req])) ∧
    (∀ req mm, envVal m gHttpRequest = Value.str req →
       reMatch HTTP_REQUEST_REGEX req = Option.some mm →
       r.http_request_method = envVal mm gMethod ∧
       r.http_request_path = envVal mm gPath ∧
       r.http_request_protocol = envVal mm gProtocol ∧
       r.notices = r0.notices) := by
  unfold parse_http_fields at h
  split at h
  case _ tq tw tc tr htq htw htc htr =>
    injection h with h
    subst h
    obtain ⟨ch, hch⟩ := headersOverride_shape m
      (httpHeadersSet m (httpTimers m tq tw tc tr (httpNames m r0)))
    rw [hch]
    rcases envVal_cases m gHttpRequest with hreq | ⟨req, hreq⟩
    · rw [requestStep_none m _ hreq]
      refine ⟨⟨tq, htq, rfl⟩, ⟨tw, htw, rfl⟩, ⟨tc, htc, rfl⟩, ⟨tr, htr, rfl⟩,
        rfl, rfl, rfl, rfl, rfl, rfl, rfl, fun _ => ⟨rfl, rfl, rfl, rfl⟩, ?_, ?_⟩
      · intro req' hs _
        rw [hreq] at hs
        exact Value.noConfusion hs
      · intro req' mm hs _
        rw [hreq] at hs
        exact Value.noConfusion hs
    · obtain ⟨me, pa, pr, no, hshape⟩ := requestStep_shape m
        (rawRequestSet m { httpHeadersSet m (httpTimers m tq tw tc tr (httpNames m r0)) with
          captured_request_headers := ch })
      refine ⟨⟨tq, htq, by rw [hshape]; try rfl⟩, ⟨tw, htw, by rw [hshape]; try rfl⟩,
        ⟨tc, htc, by rw [hshape]; try rfl⟩, ⟨tr, htr, by rw [hshape]; try rfl⟩,
        by rw [hshape]; try rfl, by rw [hshape]; try rfl, by rw [hshape]; try rfl,
        by rw [hshape]; try rfl, by rw [hshape]; try rfl, by rw [hshape]; try rfl,
        by rw [hshape]; try rfl, ?_, ?_, ?_⟩
      · intro hnone
        rw [hreq] at hnone
        exact Value.noConfusion hnone
      · intro req' hs hbad
        rw [hreq] at hs
        injection hs with hs
        subst hs
        rw [requestStep_bad m _ req hreq hreq hbad, handle_bad_fields _ req hreq]
        exact ⟨rfl, rfl, rfl, rfl⟩
      · intro req' mm hs hgood
        rw [hreq] at hs
        injection hs with hs
        subst hs
        rw [requestStep_good m _ req mm hreq hreq hgood]
        exact ⟨rfl, rfl, rfl, rfl⟩
  case _ => cases h

/-- Success structure of `_parse_tcp_fields`: the three timers go
through `int(...)`, bytes read stays as captured, and everything outside
the TCP field group passes through. -/
theorem ptf_ok (m : Env) (r0 r : LineRec) (h : parse_tcp_fields m r0 = .ok r) :
    (∃ tw, pyIntV (envVal m gTcpTw) = Option.some tw ∧ r.time_wait_queues = .int tw) ∧
    (∃ tc, pyIntV (envVal m gTcpTc) = Option.some tc ∧ r.time_connect_server = .int tc) ∧
    (∃ tt, pyIntV (envVal m gTcpTt) = Option.some tt ∧ r.total_time = .int tt) ∧
    r.bytes_read = envVal m gTcpBytesRead ∧
    r.log_type = r0.log_type ∧
    r.is_valid = r0.is_valid ∧
    r.client_port = r0.client_port ∧
    r.time_wait_request = r0.time_wait_request ∧
    r.raw_http_request = r0.raw_http_request ∧
    r.http_request_method = r0.http_request_method ∧
    r.http_request_path = r0.http_request_path ∧
    r.http_request_protocol = r0.http_request_protocol ∧
    r.notices = r0.notices := by
  unfold parse_tcp_fields at h
  split at h
  case _ tw tc tt htw htc htt =>
    injection h with h
    subst h
    exact ⟨⟨tw, htw, rfl⟩, ⟨tc, htc, rfl⟩, ⟨tt, htt, rfl⟩,
      rfl, rfl, rfl, rfl, rfl, rfl, rfl, rfl, rfl, rfl⟩
  case _ => cases h

/-- Success structure of `_parse_protocol_specific_fields`: dispatch on
the HTTP frontend capture, the counters as captured strings, the queue
pair through `int(...)`, all other fields passing through from the
protocol-specific builder. -/
theorem ppsf_ok (m : Env) (r0 r : LineRec)
    (h : parse_protocol_specific_fields m r0 = .ok r) :
    ∃ r1,
      ((∃ f, envVal m gHttpFrontendName = Value.str f) ∧
         parse_http_fields m { r0 with log_type := .lineType .HTTP } = .ok r1 ∨
       envVal m gHttpFrontendName = Value.none ∧
         parse_tcp_fields m { r0 with log_type := .lineType .TCP } = .ok r1) ∧
      (∃ qs, pyIntV (envVal m gSrvQueue) = Option.some qs ∧ r.queue_server = .int qs) ∧
      (∃ qb, pyIntV (envVal m gBackendQueue) = Option.some qb ∧ r.queue_backend = .int qb) ∧
      r.connections_active = envVal m gActconn ∧
      r.connections_frontend = envVal m gFeconn ∧
      r.connections_backend = envVal m gBeconn ∧
      r.connections_server = envVal m gSrvConn ∧
      r.retries = envVal m gRetries ∧
      r.log_type = r1.log_type ∧
      r.is_valid = r1.is_valid ∧
      r.client_port = r1.client_port ∧
      r.time_wait_request = r1.time_wait_request ∧
      r.time_wait_queues = r1.time_wait_queues ∧
      r.time_connect_server = r1.time_connect_server ∧
      r.time_wait_response = r1.time_wait_response ∧
      r.total_time = r1.total_time ∧
      r.status_code = r1.status_code ∧
      r.bytes_read = r1.bytes_read ∧
      r.raw_http_request = r1.raw_http_request ∧
      r.http_request_method = r1.http_request_method ∧
      r.http_request_path = r1.http_request_path ∧
      r.http_request_protocol = r1.http_request_protocol ∧
      r.notices = r1.notices := by
  unfold parse_protocol_specific_fields at h
  rcases envVal_cases m gHttpFrontendName with hf | ⟨f, hf⟩ <;> rw [hf] at h <;>
    dsimp only at h <;> split at h
  case _ => cases h
  case _ r1 hr1 =>
    split at h
    case _ qs qb hqs hqb =>
      injection h with h
      subst h
      exact ⟨r1, Or.inr ⟨hf, hr1⟩, ⟨qs, hqs, rfl⟩, ⟨qb, hqb, rfl⟩,
        rfl, rfl, rfl, rfl, rfl, rfl, rfl, rfl, rfl, rfl, rfl, rfl, rfl,
        rfl, rfl, rfl, rfl, rfl, rfl, rfl⟩
    case _ => cases h
  case _ => cases h
  case _ r1 hr1 =>
    split at h
    case _ qs qb hqs hqb =>
      injection h with h
      subst h
      exact ⟨r1, Or.inl ⟨⟨f, hf⟩, hr1⟩, ⟨qs, hqs, rfl⟩, ⟨qb, hqb, rfl⟩,
        rfl, rfl, rfl, rfl, rfl, rfl, rfl, rfl, rfl, rfl, rfl, rfl, rfl,
        rfl, rfl, rfl, rfl, rfl, rfl, rfl⟩
    case _ => cases h

/-- Success structure of `_parse_line` on a matching line: client port
through `int(...)`, `strptime` success, then the protocol-specific
builder on the partially-filled record, returning `True`. -/
theorem parse_line_some (line : String) (m : Env) (r0 : LineRec) (v : Bool)
    (r : LineRec) (hm : reMatch HAPROXY_LINE_REGEX line = Option.some m)
    (h : parse_line line r0 = .ok (v, r)) :
    v = true ∧
    ∃ port rawd d,
      pyIntV (envVal m gClientPort) = Option.some port ∧
      envVal m gAcceptDate = Value.str rawd ∧
      strptime rawd = Option.some d ∧
      parse_protocol_specific_fields m
        { r0 with client_ip := envVal m gClientIp, client_port := .int port,
                  raw_accept_date := .str rawd, accept_date := .dt d,
                  request_date := .dt d } = .ok r := by
  unfold parse_line at h
  rw [hm] at h
  dsimp only at h
  split at h
  case _ => cases h
  case _ port hport =>
    split at h
    case _ rawd hrawd =>
      split at h
      case _ d hd =>
        split at h
        case _ r2 hr2 =>
          injection h with h
          injection h with hv hr
          subst hv
          subst hr
          exact ⟨rfl, port, rawd, d, hport, hrawd, hd, hr2⟩
        case _ => cases h
      case _ => cases h
    all_goals cases h

/-- Full case analysis of a construction that returned normally: either
the grammar did not match and the record is fresh apart from `raw_line`,
or it matched and the record went through the whole builder with
`is_valid` set. -/
theorem lineInit_ok_cases (line : String) (r : LineRec)
    (h : lineInit line = .ok r) :
    (reMatch HAPROXY_LINE_REGEX line = Option.none ∧
      r = { raw_line := Value.str line }) ∨
    (∃ m, reMatch HAPROXY_LINE_REGEX line = Option.some m ∧ r.is_valid = true ∧
      ∃ port rawd d r2,
        pyIntV (envVal m gClientPort) = Option.some port ∧
        envVal m gAcceptDate = Value.str rawd ∧
        strptime rawd = Option.some d ∧
        parse_protocol_specific_fields m
          { client_ip := envVal m gClientIp, client_port := .int port,
            raw_accept_date := .str rawd, accept_date := .dt d,
            request_date := .dt d, raw_line := Value.str line } = .ok r2 ∧
        r = { r2 with is_valid := true }) := by
  unfold lineInit at h
  dsimp only at h
  split at h
  case _ v r2 hpl =>
    injection h with h
    subst h
    cases hre : reMatch HAPROXY_LINE_REGEX line with
    | none =>
        left
        refine ⟨rfl, ?_⟩
        unfold parse_line at hpl
        rw [hre] at hpl
        injection hpl with hpl
        injection hpl with hv hr2
        subst hv
        subst hr2
        rfl
    | some m =>
        right
        obtain ⟨hv, port, rawd, d, hport, hrawd, hd, hpsf⟩ :=
          parse_line_some line m _ v r2 hre hpl
        subst hv
        exact ⟨m, rfl, rfl, port, rawd, d, r2, hport, hrawd, hd, hpsf, rfl⟩
  case _ => cases h

/-- A non-matching line: construction succeeds with a record that is
fresh apart from `raw_line`. -/
theorem lineInit_nomatch (line : String)
    (h : reMatch HAPROXY_LINE_REGEX line = Option.none) :
    lineInit line = .ok { raw_line := Value.str line } := by
  unfold lineInit parse_line
  rw [h]

/-- A normal construction with `is_valid` true went through the whole
builder on a successful match. -/
theorem lineInit_ok_valid (line : String) (r : LineRec)
    (h : lineInit line = .ok r) (hv : r.is_valid = true) :
    ∃ m, reMatch HAPROXY_LINE_REGEX line = Option.some m ∧
      ∃ port rawd d r2,
        pyIntV (envVal m gClientPort) = Option.some port ∧
        envVal m gAcceptDate = Value.str rawd ∧
        strptime rawd = Option.some d ∧
        parse_protocol_specific_fields m
          { client_ip := envVal m gClientIp, client_port := .int port,
            raw_accept_date := .str rawd, accept_date := .dt d,
            request_date := .dt d, raw_line := Value.str line } = .ok r2 ∧
        r = { r2 with is_valid := true } := by
  rcases lineInit_ok_cases line r h with ⟨_, hr⟩ | ⟨m, hm, _, rest⟩
  · rw [hr] at hv
    simp at hv
  · exact ⟨m, hm, rest⟩

/-- A normal construction with `is_valid` false means the grammar did not
match and the record is fresh apart from `raw_line`. -/
theorem lineInit_ok_invalid (line : String) (r : LineRec)
    (h : lineInit line = .ok r) (hv : r.is_valid = false) :
    reMatch HAPROXY_LINE_REGEX line = Option.none ∧
    r = { raw_line := Value.str line } := by
  rcases lineInit_ok_cases line r h with ⟨hm, hr⟩ | ⟨m, _, hvalid, _⟩
  · exact ⟨hm, hr⟩
  · rw [hvalid] at hv
    cases hv

/-- A capture of the full-line match, by name. -/
def haproxyGroup (line : String) (g : Nat) : Option String :=
  match reMatch HAPROXY_LINE_REGEX line with
  | Option.some m => envStr m g
  | Option.none => Option.none

/-! ### Concrete input lines used by the claims -/

/-- The spec's end-to-end example line. -/
def exampleLine : String := "127.0.0.1:2345 [09/Dec/2013:12:59:46.633] loadbalancer default/instance8 0/51536/1/48082/99627 200 83285 - - ---- 87/89/98/1/20 2/67 \x7b77.24.148.74\x7d \"GET /path/to/image HTTP/1.1\""

/-- A line that satisfies both the HTTP and the TCP sub-shape: read as
HTTP it is `f b/s 1/2/3/4/5 200 100` with junk `f2 b2/s2 1/2/3 50 --`
before the counters; read as TCP it is `f b/s 1/2/3/4/5 200 100 f2`
(frontend), `b2/s2`, `1/2/3`, `50`. -/
def dualLine : String := "127.0.0.1:80 [09/Dec/2013:12:59:46.633] f b/s 1/2/3/4/5 200 100 f2 b2/s2 1/2/3 50 -- 1/1/1/1/1 0/0"

/-- The example line cut immediately after the queue pair. -/
def truncatedLine : String := "127.0.0.1:2345 [09/Dec/2013:12:59:46.633] loadbalancer default/instance8 0/51536/1/48082/99627 200 83285 - - ---- 87/89/98/1/20 2/67"

/-- The example line with the captured request cut before the protocol
token. -/
def noProtoLine : String := "127.0.0.1:2345 [09/Dec/2013:12:59:46.633] loadbalancer default/instance8 0/51536/1/48082/99627 200 83285 - - ---- 87/89/98/1/20 2/67 \x7b77.24.148.74\x7d \"GET /path/to/image\""

/-- The example line cut mid-quote (no closing double quote). -/
def noQuoteLine : String := "127.0.0.1:2345 [09/Dec/2013:12:59:46.633] loadbalancer default/instance8 0/51536/1/48082/99627 200 83285 - - ---- 87/89/98/1/20 2/67 \x7b77.24.148.74\x7d \"GET /path/to/image HTTP/1.1"

/-- The example line with a captured header group whose first
`|`-delimited token is empty. -/
def pipeHeaderLine : String := "127.0.0.1:2345 [09/Dec/2013:12:59:46.633] loadbalancer default/instance8 0/51536/1/48082/99627 200 83285 - - ---- 87/89/98/1/20 2/67 \x7b|8.8.8.8\x7d \"GET /path/to/image HTTP/1.1\""

/-- A syslog-prefixed line whose quoted request is the balancer's
`<BADREQ>` placeholder. -/
def badreqLine : String := "Dec  9 13:01:26 localhost haproxy[28029]: 127.0.0.1:2345 [09/Dec/2013:12:59:46.633] f b/s 0/0/0/0/0 200 0 - - ---- 1/1/1/1/0 0/0 \"<BADREQ>\""

/-- A TCP-shaped line whose bracketed accept-date field holds `garbage`:
the outer grammar still matches (the date capture is `.+`). -/
def garbageDateLine : String := "127.0.0.1:80 [garbage] f b/s 1/2/3 4 -- 1/1/1/1/1 0/0"

/-! ### The claims -/

set_option maxRecDepth 1000000

/-- C2: parsing the spec's end-to-end example line (syslog-prefix-free
HTTP line with one brace-delimited header group and a quoted request)
yields a valid record with client address `127.0.0.1:2345`, routing
`loadbalancer`/`default`/`instance8`, status code `"200"`, and request
`GET /path/to/image HTTP/1.1`. -/
theorem claim_C2_example_line_end_to_end :
    lineInit exampleLine = .ok (recOf exampleLine) ∧
    (recOf exampleLine).is_valid = true ∧
    (recOf exampleLine).client_ip = Value.str "127.0.0.1" ∧
    (recOf exampleLine).client_port = Value.int 2345 ∧
    (recOf exampleLine).frontend_name = Value.str "loadbalancer" ∧
    (recOf exampleLine).backend_name = Value.str "default" ∧
    (recOf exampleLine).server_name = Value.str "instance8" ∧
    (recOf exampleLine).status_code = Value.str "200" ∧
    (recOf exampleLine).http_request_method = Value.str "GET" ∧
    (recOf exampleLine).http_request_path = Value.str "/path/to/image" ∧
    (recOf exampleLine).http_request_protocol = Value.str "HTTP/1.1" :=
  ⟨rfl, rfl, rfl, rfl, rfl, rfl, rfl, rfl, rfl, rfl, rfl⟩

/-- C5: a line the outer grammar does not match constructs normally (no
exception), with `is_valid` false and every field other than `raw_line`
at its unset default (the record literal below leaves every other field
at the class default `None`). -/
theorem claim_C5_nomatch_all_defaults (line : String)
    (h : reMatch HAPROXY_LINE_REGEX line = Option.none) :
    lineInit line = .ok { raw_line := Value.str line } ∧
    ({ raw_line := Value.str line } : LineRec).is_valid = false ∧
    ({ raw_line := Value.str line } : LineRec).http_request_path = Value.none :=
  ⟨lineInit_nomatch line h, rfl, rfl⟩

/-- Witness for C5 at the concrete non-matching line `hello`. -/
theorem claim_C5_witness :
    reMatch HAPROXY_LINE_REGEX "hello" = Option.none ∧
    (lineInit "hello" = .ok { raw_line := Value.str "hello" } ∧
     ({ raw_line := Value.str "hello" } : LineRec).is_valid = false ∧
     ({ raw_line := Value.str "hello" } : LineRec).http_request_path = Value.none) :=
  ⟨rfl, claim_C5_nomatch_all_defaults "hello" rfl⟩

/-- C6: truncation tolerance.  A well-formed line cut right after the
queue pair is still valid with no request fields populated; a captured
request cut before the protocol token leaves `http_request_protocol`
unset with method and path populated; a line whose quoted request lacks
the closing quote captures the whole trailing substring after the
opening quote. -/
theorem claim_C6_truncation_tolerance :
    (lineInit truncatedLine = .ok (recOf truncatedLine) ∧
     (recOf truncatedLine).is_valid = true ∧
     (recOf truncatedLine).raw_http_request = Value.none ∧
     (recOf truncatedLine).http_request_method = Value.none ∧
     (recOf truncatedLine).http_request_path = Value.none ∧
     (recOf truncatedLine).http_request_protocol = Value.none) ∧
    (lineInit noProtoLine = .ok (recOf noProtoLine) ∧
     (recOf noProtoLine).is_valid = true ∧
     (recOf noProtoLine).http_request_method = Value.str "GET" ∧
     (recOf noProtoLine).http_request_path = Value.str "/path/to/image" ∧
     (recOf noProtoLine).http_request_protocol = Value.none) ∧
    (lineInit noQuoteLine = .ok (recOf noQuoteLine) ∧
     (recOf noQuoteLine).is_valid = true ∧
     (recOf noQuoteLine).raw_http_request =
       Value.str "GET /path/to/image HTTP/1.1") :=
  ⟨⟨rfl, rfl, rfl, rfl, rfl, rfl⟩, ⟨rfl, rfl, rfl, rfl, rfl⟩, ⟨rfl, rfl, rfl⟩⟩

/-- C1 counterexample: the HTTP and TCP sub-shapes are not mutually
exclusive.  `dualLine` fully matches the line grammar restricted to the
HTTP sub-shape and also the line grammar restricted to the TCP
sub-shape; the full matcher (which tries HTTP first) classifies it as
HTTP. -/
theorem claim_C1_counterexample :
    (reMatch haproxyHttpOnly dualLine).isSome = true ∧
    (reMatch haproxyTcpOnly dualLine).isSome = true ∧
    lineInit dualLine = .ok (recOf dualLine) ∧
    (recOf dualLine).log_type = Value.lineType LineType.HTTP :=
  ⟨rfl, rfl, rfl, rfl⟩

/-- C1 (amended): within a successful full-line match and normal
construction, the record is classified HTTP exactly when the HTTP
frontend-name capture participated in the match, and TCP when it did
not. -/
theorem claim_C1_classification (line : String) (r : LineRec)
    (h : lineInit line = .ok r) (hv : r.is_valid = true) :
    ∃ m, reMatch HAPROXY_LINE_REGEX line = Option.some m ∧
      ((∃ f, envVal m gHttpFrontendName = Value.str f) →
        r.log_type = Value.lineType LineType.HTTP) ∧
      (envVal m gHttpFrontendName = Value.none →
        r.log_type = Value.lineType LineType.TCP) := by
  obtain ⟨m, hm, port, rawd, d, r2, hport, hrawd, hd, hpsf, hr⟩ :=
    lineInit_ok_valid line r h hv
  obtain ⟨r1, hdisp, hqs, hqb, hact, hfe, hbe, hsrv, hret, hlog, hval, hcp,
    htwr, htwq, htcs, htwresp, htot, hstat, hbytes, hraw, hme, hpa, hpr, hnot⟩ :=
    ppsf_ok m _ r2 hpsf
  have hrlog : r.log_type = r1.log_type := by rw [hr, show ({ r2 with is_valid := true } : LineRec).log_type = r2.log_type from rfl, hlog]
  rcases hdisp with ⟨⟨f, hf⟩, hphf⟩ | ⟨hfnone, hptf⟩
  · obtain ⟨_, _, _, _, _, _, _, hl1, _⟩ := phf_ok m _ r1 hphf
    refine ⟨m, hm, fun _ => ?_, fun hnone => ?_⟩
    · rw [hrlog, hl1]
    · rw [hf] at hnone
      exact Value.noConfusion hnone
  · obtain ⟨_, _, _, _, hl1, _⟩ := ptf_ok m _ r1 hptf
    refine ⟨m, hm, fun hex => ?_, fun _ => ?_⟩
    · obtain ⟨f, hf⟩ := hex
      rw [hfnone] at hf
      exact Value.noConfusion hf
    · rw [hrlog, hl1]

/-- Witness for the amended C1 at the dual-shape line: its record is
classified HTTP with the frontend capture present. -/
theorem claim_C1_witness :
    lineInit dualLine = .ok (recOf dualLine) ∧
    (recOf dualLine).is_valid = true ∧
    (∃ m, reMatch HAPROXY_LINE_REGEX dualLine = Option.some m ∧
      ((∃ f, envVal m gHttpFrontendName = Value.str f) →
        (recOf dualLine).log_type = Value.lineType LineType.HTTP) ∧
      (envVal m gHttpFrontendName = Value.none →
        (recOf dualLine).log_type = Value.lineType LineType.TCP)) :=
  ⟨rfl, rfl, claim_C1_classification dualLine (recOf dualLine) rfl rfl⟩

/-- C3 counterexample: on the accepted example line, the connection
counters, `retries`, and HTTP `total_time` are stored as the captured
strings, not as integers. -/
theorem claim_C3_counterexample :
    lineInit exampleLine = .ok (recOf exampleLine) ∧
    (recOf exampleLine).is_valid = true ∧
    (recOf exampleLine).connections_active = Value.str "87" ∧
    (recOf exampleLine).connections_active ≠ Value.int 87 ∧
    (recOf exampleLine).total_time = Value.str "99627" ∧
    (recOf exampleLine).total_time ≠ Value.int 99627 ∧
    (recOf exampleLine).retries = Value.str "20" :=
  ⟨rfl, rfl, rfl, by decide, rfl, by decide, rfl⟩

/-- C3 (amended): on every accepted line the builder stores as sign-parsed
integers exactly `client_port`, the queue pair, the HTTP timers
`Tq/Tw/Tc/Tr`, and the TCP timers `Tw/Tc/Tt` (TCP `total_time`); the
connection counters and `retries`, as well as HTTP `total_time`, the
status code and the byte counts, are kept as their captured strings. -/
theorem claim_C3_numeric_fields (line : String) (r : LineRec)
    (h : lineInit line = .ok r) (hv : r.is_valid = true) :
    ∃ m, reMatch HAPROXY_LINE_REGEX line = Option.some m ∧
      (∃ port, pyIntV (envVal m gClientPort) = Option.some port ∧
        r.client_port = Value.int port) ∧
      (∃ qs, pyIntV (envVal m gSrvQueue) = Option.some qs ∧
        r.queue_server = Value.int qs) ∧
      (∃ qb, pyIntV (envVal m gBackendQueue) = Option.some qb ∧
        r.queue_backend = Value.int qb) ∧
      r.connections_active = envVal m gActconn ∧
      r.connections_frontend = envVal m gFeconn ∧
      r.connections_backend = envVal m gBeconn ∧
      r.connections_server = envVal m gSrvConn ∧
      r.retries = envVal m gRetries ∧
      (r.log_type = Value.lineType LineType.HTTP →
        (∃ tq, pyIntV (envVal m gHttpTq) = Option.some tq ∧
          r.time_wait_request = Value.int tq) ∧
        (∃ tw, pyIntV (envVal m gHttpTw) = Option.some tw ∧
          r.time_wait_queues = Value.int tw) ∧
        (∃ tc, pyIntV (envVal m gHttpTc) = Option.some tc ∧
          r.time_connect_server = Value.int tc) ∧
        (∃ tr, pyIntV (envVal m gHttpTr) = Option.some tr ∧
          r.time_wait_response = Value.int tr) ∧
        r.total_time = envVal m gHttpTa ∧
        r.status_code = envVal m gHttpStatusCode ∧
        r.bytes_read = envVal m gHttpBytesRead) ∧
      (r.log_type = Value.lineType LineType.TCP →
        (∃ tw, pyIntV (envVal m gTcpTw) = Option.some tw ∧
          r.time_wait_queues = Value.int tw) ∧
        (∃ tc, pyIntV (envVal m gTcpTc) = Option.some tc ∧
          r.time_connect_server = Value.int tc) ∧
        (∃ tt, pyIntV (envVal m gTcpTt) = Option.some tt ∧
          r.total_time = Value.int tt) ∧
        r.bytes_read = envVal m gTcpBytesRead) := by
  obtain ⟨m, hm, port, rawd, d, r2, hport, hrawd, hd, hpsf, hr⟩ :=
    lineInit_ok_valid line r h hv
  obtain ⟨r1, hdisp, ⟨qs, hqs, hqsr⟩, ⟨qb, hqb, hqbr⟩, hact, hfe, hbe, hsrv,
    hret, hlog, hval, hcp, htwr, htwq, htcs, htwresp, htot, hstat, hbytes,
    hraw, hme, hpa, hpr, hnot⟩ := ppsf_ok m _ r2 hpsf
  have hrProj : ∀ f : LineRec → Value,
      f { r2 with is_valid := true } = f r2 → f r = f r2 := by
    intro f hf
    rw [hr, hf]
  refine ⟨m, hm, ⟨port, hport, ?_⟩, ⟨qs, hqs, ?_⟩, ⟨qb, hqb, ?_⟩,
    ?_, ?_, ?_, ?_, ?_, ?_, ?_⟩
  · rw [hrProj (fun x => x.client_port) rfl, hcp]
    rcases hdisp with ⟨_, hphf⟩ | ⟨_, hptf⟩
    · obtain ⟨_, _, _, _, _, _, _, _, _, hcp1, _⟩ := phf_ok m _ r1 hphf
      rw [hcp1]
    · obtain ⟨_, _, _, _, _, _, hcp1, _⟩ := ptf_ok m _ r1 hptf
      rw [hcp1]
  · rw [hrProj (fun x => x.queue_server) rfl, hqsr]
  · rw [hrProj (fun x => x.queue_backend) rfl, hqbr]
  · rw [hrProj (fun x => x.connections_active) rfl, hact]
  · rw [hrProj (fun x => x.connections_frontend) rfl, hfe]
  · rw [hrProj (fun x => x.connections_backend) rfl, hbe]
  · rw [hrProj (fun x => x.connections_server) rfl, hsrv]
  · rw [hrProj (fun x => x.retries) rfl, hret]
  · intro hhttp
    rcases hdisp with ⟨_, hphf⟩ | ⟨_, hptf⟩
    · obtain ⟨⟨tq, htq, htqr⟩, ⟨tw, htw, htwr1⟩, ⟨tc, htc, htcr⟩,
        ⟨tr, htr, htrr⟩, htot1, hstat1, hbytes1, _⟩ := phf_ok m _ r1 hphf
      exact ⟨⟨tq, htq, by rw [hrProj (fun x => x.time_wait_request) rfl, htwr, htqr]⟩,
        ⟨tw, htw, by rw [hrProj (fun x => x.time_wait_queues) rfl, htwq, htwr1]⟩,
        ⟨tc, htc, by rw [hrProj (fun x => x.time_connect_server) rfl, htcs, htcr]⟩,
        ⟨tr, htr, by rw [hrProj (fun x => x.time_wait_response) rfl, htwresp, htrr]⟩,
        by rw [hrProj (fun x => x.total_time) rfl, htot, htot1],
        by rw [hrProj (fun x => x.status_code) rfl, hstat, hstat1],
        by rw [hrProj (fun x => x.bytes_read) rfl, hbytes, hbytes1]⟩
    · obtain ⟨_, _, _, _, hl1, _⟩ := ptf_ok m _ r1 hptf
      rw [hrProj (fun x => x.log_type) rfl, hlog, hl1] at hhttp
      injection hhttp with hhttp
      exact LineType.noConfusion hhttp
  · intro htcp
    rcases hdisp with ⟨_, hphf⟩ | ⟨_, hptf⟩
    · obtain ⟨_, _, _, _, _, _, _, hl1, _⟩ := phf_ok m _ r1 hphf
      rw [hrProj (fun x => x.log_type) rfl, hlog, hl1] at htcp
      injection htcp with htcp
      exact LineType.noConfusion htcp
    · obtain ⟨⟨tw, htw, htwr1⟩, ⟨tc, htc, htcr⟩, ⟨tt, htt, httr⟩,
        hbytes1, _⟩ := ptf_ok m _ r1 hptf
      exact ⟨⟨tw, htw, by rw [hrProj (fun x => x.time_wait_queues) rfl, htwq, htwr1]⟩,
        ⟨tc, htc, by rw [hrProj (fun x => x.time_connect_server) rfl, htcs, htcr]⟩,
        ⟨tt, htt, by rw [hrProj (fun x => x.total_time) rfl, htot, httr]⟩,
        by rw [hrProj (fun x => x.bytes_read) rfl, hbytes, hbytes1]⟩

/-- Witness for the amended C3 at the example line. -/
theorem claim_C3_witness :
    lineInit exampleLine = .ok (recOf exampleLine) ∧
    (recOf exampleLine).is_valid = true ∧
    (∃ m, reMatch HAPROXY_LINE_REGEX exampleLine = Option.some m ∧
      (∃ port, pyIntV (envVal m gClientPort) = Option.some port ∧
        (recOf exampleLine).client_port = Value.int port) ∧
      (∃ qs, pyIntV (envVal m gSrvQueue) = Option.some qs ∧
        (recOf exampleLine).queue_server = Value.int qs) ∧
      (∃ qb, pyIntV (envVal m gBackendQueue) = Option.some qb ∧
        (recOf exampleLine).queue_backend = Value.int qb) ∧
      (recOf exampleLine).connections_active = envVal m gActconn ∧
      (recOf exampleLine).connections_frontend = envVal m gFeconn ∧
      (recOf exampleLine).connections_backend = envVal m gBeconn ∧
      (recOf exampleLine).connections_server = envVal m gSrvConn ∧
      (recOf exampleLine).retries = envVal m gRetries ∧
      ((recOf exampleLine).log_type = Value.lineType LineType.HTTP →
        (∃ tq, pyIntV (envVal m gHttpTq) = Option.some tq ∧
          (recOf exampleLine).time_wait_request = Value.int tq) ∧
        (∃ tw, pyIntV (envVal m gHttpTw) = Option.some tw ∧
          (recOf exampleLine).time_wait_queues = Value.int tw) ∧
        (∃ tc, pyIntV (envVal m gHttpTc) = Option.some tc ∧
          (recOf exampleLine).time_connect_server = Value.int tc) ∧
        (∃ tr, pyIntV (envVal m gHttpTr) = Option.some tr ∧
          (recOf exampleLine).time_wait_response = Value.int tr) ∧
        (recOf exampleLine).total_time = envVal m gHttpTa ∧
        (recOf exampleLine).status_code = envVal m gHttpStatusCode ∧
        (recOf exampleLine).bytes_read = envVal m gHttpBytesRead) ∧
      ((recOf exampleLine).log_type = Value.lineType LineType.TCP →
        (∃ tw, pyIntV (envVal m gTcpTw) = Option.some tw ∧
          (recOf exampleLine).time_wait_queues = Value.int tw) ∧
        (∃ tc, pyIntV (envVal m gTcpTc) = Option.some tc ∧
          (recOf exampleLine).time_connect_server = Value.int tc) ∧
        (∃ tt, pyIntV (envVal m gTcpTt) = Option.some tt ∧
          (recOf exampleLine).total_time = Value.int tt) ∧
        (recOf exampleLine).bytes_read = envVal m gTcpBytesRead)) :=
  ⟨rfl, rfl, claim_C3_numeric_fields exampleLine (recOf exampleLine) rfl rfl⟩

/-- C7 counterexample: the outer grammar does not constrain the shape of
the bracketed accept-date capture.  `garbageDateLine` matches the line
grammar with `garbage` captured as the date, `strptime` rejects it, and
construction raises (a hard failure), so the format-error branch is
reachable without any calendar-invalid value. -/
theorem claim_C7_counterexample :
    (reMatch HAPROXY_LINE_REGEX garbageDateLine).isSome = true ∧
    haproxyGroup garbageDateLine gAcceptDate = Option.some "garbage" ∧
    strptime "garbage" = Option.none ∧
    lineInit garbageDateLine =
      .error "ValueError: time data does not match format" :=
  ⟨rfl, rfl, rfl, rfl⟩

/-- C7 (amended): whenever the outer grammar accepts a line whose
captured accept-date substring does not parse, construction raises (an
`Except.error`), never a recoverable `is_valid = false` record. -/
theorem claim_C7_bad_date_raises (line rawd : String)
    (hg : haproxyGroup line gAcceptDate = Option.some rawd)
    (hbad : strptime rawd = Option.none) :
    ∃ e, lineInit line = .error e := by
  unfold haproxyGroup at hg
  split at hg
  case _ m hm =>
    unfold lineInit parse_line
    rw [hm]
    dsimp only
    cases hpv : pyIntV (envVal m gClientPort) with
    | none => exact ⟨"ValueError: int", rfl⟩
    | some port =>
        have hval : envVal m gAcceptDate = Value.str rawd := by
          unfold envVal
          rw [hg]
        rw [hval]
        dsimp only
        rw [hbad]
        exact ⟨"ValueError: time data does not match format", rfl⟩
  case _ => cases hg

/-- Witness for the amended C7 at the garbage-date line. -/
theorem claim_C7_witness :
    haproxyGroup garbageDateLine gAcceptDate = Option.some "garbage" ∧
    strptime "garbage" = Option.none ∧
    (∃ e, lineInit garbageDateLine = .error e) :=
  ⟨rfl, rfl, claim_C7_bad_date_raises garbageDateLine "garbage" rfl rfl⟩

/-- C8 counterexample: a record whose captured-request-headers string is
present and non-empty but starts with `|`: the `ip` property returns
`client_ip`, not the (empty) first `|`-delimited token. -/
theorem claim_C8_counterexample :
    lineInit pipeHeaderLine = .ok (recOf pipeHeaderLine) ∧
    (recOf pipeHeaderLine).is_valid = true ∧
    (recOf pipeHeaderLine).captured_request_headers = Value.str "|8.8.8.8" ∧
    "|8.8.8.8" ≠ "" ∧
    splitOnPipe (strCodes "|8.8.8.8") = [[], strCodes "8.8.8.8"] ∧
    (recOf pipeHeaderLine).client_ip = Value.str "127.0.0.1" ∧
    lineIp (recOf pipeHeaderLine) = Value.str "127.0.0.1" ∧
    Value.str "127.0.0.1" ≠ Value.str "" :=
  ⟨rfl, rfl, rfl, by decide, by decide, rfl, rfl, by decide⟩

/-- C8 (amended): the `ip` property returns the first `|`-delimited token
of `captured_request_headers` when that attribute is a string and the
token is non-empty, and `client_ip` otherwise (first token empty, or the
attribute absent). -/
theorem claim_C8_resolved_ip :
    (∀ (r : LineRec) (h : String) (t : List Nat) (rest : List (List Nat)),
      r.captured_request_headers = Value.str h →
      splitOnPipe (strCodes h) = t :: rest →
      (t = [] → lineIp r = r.client_ip) ∧
      (t ≠ [] → lineIp r = Value.str (tokenStr t))) ∧
    (∀ r : LineRec, r.captured_request_headers = Value.none →
      lineIp r = r.client_ip) := by
  constructor
  · intro r h t rest hh hsplit
    unfold lineIp
    rw [hh]
    dsimp only
    rw [hsplit]
    constructor
    · intro ht
      simp [ht]
    · intro ht
      simp [ht]
  · intro r hr
    unfold lineIp
    rw [hr]

/-- Witness for the amended C8: the example line's record (headers
`77.24.148.74`, non-empty first token) resolves to the captured header,
and the truncated line's record (headers absent) falls back to
`client_ip`. -/
theorem claim_C8_witness :
    ((recOf exampleLine).captured_request_headers =
        Value.str "77.24.148.74" ∧
      splitOnPipe (strCodes "77.24.148.74") = [strCodes "77.24.148.74"] ∧
      lineIp (recOf exampleLine) = Value.str (tokenStr (strCodes "77.24.148.74"))) ∧
    ((recOf truncatedLine).captured_request_headers = Value.none ∧
      lineIp (recOf truncatedLine) = (recOf truncatedLine).client_ip) :=
  ⟨⟨rfl, rfl,
      (claim_C8_resolved_ip.1 (recOf exampleLine) "77.24.148.74"
        (strCodes "77.24.148.74") [] rfl rfl).2 (by decide)⟩,
    ⟨rfl, claim_C8_resolved_ip.2 (recOf truncatedLine) rfl⟩⟩

/-- C9: on a line the outer grammar accepts whose captured request
substring the request grammar rejects, the record stays valid with all
three request fields set to the `'invalid'` sentinel, and a diagnostic
naming the substring is emitted unless it is `<BADREQ>`. -/
theorem claim_C9_bad_request_sentinels (line : String) (r : LineRec)
    (req : String) (h : lineInit line = .ok r)
    (hreqr : r.raw_http_request = Value.str req)
    (hbad : reMatch HTTP_REQUEST_REGEX req = Option.none) :
    r.is_valid = true ∧
    r.http_request_method = Value.str "invalid" ∧
    r.http_request_path = Value.str "invalid" ∧
    r.http_request_protocol = Value.str "invalid" ∧
    r.notices = (if req = "<BADREQ>" then []
                 else ["Could not process HTTP request " ++ req]) := by
  rcases lineInit_ok_cases line r h with ⟨_, hr⟩ |
    ⟨m, hm, hval, port, rawd, d, r2, hport, hrawd, hd, hpsf, hr⟩
  · rw [hr] at hreqr
    exact Value.noConfusion hreqr
  · obtain ⟨r1, hdisp, hqs, hqb, hact, hfe, hbe, hsrv, hret, hlog, hval1, hcp,
      htwr, htwq, htcs, htwresp, htot, hstat, hbytes, hraw, hme, hpa, hpr,
      hnot⟩ := ppsf_ok m _ r2 hpsf
    have hproj : ∀ g : LineRec → Value,
        g { r2 with is_valid := true } = g r2 → g r = g r2 := by
      intro g hg
      rw [hr, hg]
    rcases hdisp with ⟨⟨f, hf⟩, hphf⟩ | ⟨hfnone, hptf⟩
    · obtain ⟨_, _, _, _, _, _, _, _, _, _, hraw1, hnonecase, hbadcase,
        hgoodcase⟩ := phf_ok m _ r1 hphf
      have hreq2 : envVal m gHttpRequest = Value.str req := by
        rw [← hraw1, ← hraw, ← hproj (fun x => x.raw_http_request) rfl]
        exact hreqr
      obtain ⟨hm1, hp1, hpr1, hn1⟩ := hbadcase req hreq2 hbad
      refine ⟨hval, ?_, ?_, ?_, ?_⟩
      · rw [hproj (fun x => x.http_request_method) rfl, hme, hm1]
      · rw [hproj (fun x => x.http_request_path) rfl, hpa, hp1]
      · rw [hproj (fun x => x.http_request_protocol) rfl, hpr, hpr1]
      · rw [show r.notices = r2.notices from by rw [hr], hnot, hn1]
        simp
    · obtain ⟨_, _, _, _, _, _, _, _, hraw1, _⟩ := ptf_ok m _ r1 hptf
      have hnone2 : r.raw_http_request = Value.none := by
        rw [hproj (fun x => x.raw_http_request) rfl, hraw, hraw1]
      exact Value.noConfusion (hnone2.symm.trans hreqr)

/-- Witness for C9 at the `<BADREQ>` line: sentinels set, no diagnostic
emitted. -/
theorem claim_C9_witness :
    lineInit badreqLine = .ok (recOf badreqLine) ∧
    (recOf badreqLine).raw_http_request = Value.str "<BADREQ>" ∧
    reMatch HTTP_REQUEST_REGEX "<BADREQ>" = Option.none ∧
    ((recOf badreqLine).is_valid = true ∧
     (recOf badreqLine).http_request_method = Value.str "invalid" ∧
     (recOf badreqLine).http_request_path = Value.str "invalid" ∧
     (recOf badreqLine).http_request_protocol = Value.str "invalid" ∧
     (recOf badreqLine).notices = (if "<BADREQ>" = "<BADREQ>" then []
        else ["Could not process HTTP request " ++ "<BADREQ>"])) :=
  ⟨rfl, rfl, rfl,
    claim_C9_bad_request_sentinels badreqLine (recOf badreqLine) "<BADREQ>"
      rfl rfl rfl⟩

/-- C10: on every record produced by a normal construction,
`http_request_path` is still unset when the line was invalid, TCP-mode,
or HTTP-mode with no captured request, and then the `is_https` property
raises a `TypeError` instead of returning false; it returns a boolean
exactly on records whose path holds a string (parsed or the `'invalid'`
sentinel). -/
theorem claim_C10_is_https_unset_raises (line : String) (r : LineRec)
    (h : lineInit line = .ok r) :
    ((r.is_valid = false ∨ r.log_type = Value.lineType LineType.TCP ∨
        (r.log_type = Value.lineType LineType.HTTP ∧
         r.raw_http_request = Value.none)) →
      r.http_request_path = Value.none ∧
      is_https r =
        .error "TypeError: argument of type NoneType is not iterable") ∧
    (∀ p, r.http_request_path = Value.str p →
      is_https r = .ok (containsSub (strCodes ":443") (strCodes p))) := by
  constructor
  · intro hcase
    have hpath : r.http_request_path = Value.none := by
      rcases lineInit_ok_cases line r h with ⟨_, hr⟩ |
        ⟨m, hm, hval, port, rawd, d, r2, hport, hrawd, hd, hpsf, hr⟩
      · rw [hr]
      · obtain ⟨r1, hdisp, hqs, hqb, hact, hfe, hbe, hsrv, hret, hlog, hval1,
          hcp, htwr, htwq, htcs, htwresp, htot, hstat, hbytes, hraw, hme, hpa,
          hpr, hnot⟩ := ppsf_ok m _ r2 hpsf
        have hproj : ∀ g : LineRec → Value,
            g { r2 with is_valid := true } = g r2 → g r = g r2 := by
          intro g hg
          rw [hr, hg]
        rcases hcase with hinv | hcase2
        · rw [hval] at hinv
          cases hinv
        · rcases hdisp with ⟨⟨f, hf⟩, hphf⟩ | ⟨hfnone, hptf⟩
          · obtain ⟨_, _, _, _, _, _, _, hl1, _, _, hraw1, hnonecase, _, _⟩ :=
              phf_ok m _ r1 hphf
            rcases hcase2 with htcp | ⟨_, hrawnone⟩
            · rw [hproj (fun x => x.log_type) rfl, hlog, hl1] at htcp
              injection htcp with htcp
              exact LineType.noConfusion htcp
            · have hreqnone : envVal m gHttpRequest = Value.none := by
                rw [← hraw1, ← hraw, ← hproj (fun x => x.raw_http_request) rfl]
                exact hrawnone
              obtain ⟨_, hp1, _, _⟩ := hnonecase hreqnone
              rw [hproj (fun x => x.http_request_path) rfl, hpa, hp1]
          · obtain ⟨_, _, _, _, _, _, _, _, _, _, hp1, _, _⟩ :=
              ptf_ok m _ r1 hptf
            rw [hproj (fun x => x.http_request_path) rfl, hpa, hp1]
    refine ⟨hpath, ?_⟩
    unfold is_https
    rw [hpath]
  · intro p hp
    unfold is_https
    rw [hp]

/-- Witness for C10 at the line truncated after the queue pair: a valid
HTTP record with no captured request, on which `is_https` raises. -/
theorem claim_C10_witness :
    lineInit truncatedLine = .ok (recOf truncatedLine) ∧
    ((recOf truncatedLine).log_type = Value.lineType LineType.HTTP ∧
     (recOf truncatedLine).raw_http_request = Value.none) ∧
    ((recOf truncatedLine).http_request_path = Value.none ∧
     is_https (recOf truncatedLine) =
       .error "TypeError: argument of type NoneType is not iterable") :=
  ⟨rfl, ⟨rfl, rfl⟩,
    (claim_C10_is_https_unset_raises truncatedLine (recOf truncatedLine)
      rfl).1 (Or.inr (Or.inr ⟨rfl, rfl⟩))⟩

/-- The accept timestamp of the example line. -/
def exAcceptDate : PyDateTime :=
  { year := 2013, month := 12, day := 9, hour := 12, minute := 59,
    second := 46, usec := 633000 }

/-- A datetime strictly before `exAcceptDate`. -/
def dayBefore : PyDateTime :=
  { year := 2013, month := 12, day := 8, hour := 0, minute := 0,
    second := 0, usec := 0 }

/-- C4 counterexample: with `start` unset and `end` strictly before the
record's accept time, `is_within_time_frame` returns `True` — the end
bound is not enforced when `start` is unset, contradicting the claimed
conjunction. -/
theorem claim_C4_counterexample :
    lineInit exampleLine = .ok (recOf exampleLine) ∧
    (recOf exampleLine).is_valid = true ∧
    (recOf exampleLine).accept_date = Value.dt exAcceptDate ∧
    PyDateTime.lt dayBefore exAcceptDate = true ∧
    is_within_time_frame (recOf exampleLine) Option.none
      (Option.some dayBefore) = .ok true :=
  ⟨rfl, rfl, rfl, by decide, rfl⟩

/-- C4 (amended): the check returns a boolean that is true iff `start`
is unset (in which case `end` is ignored), or `start ≤ accept_date` and
(`end` is unset or `end ≥ accept_date`). -/
theorem claim_C4_within_time_frame (r : LineRec) (d : PyDateTime)
    (start stop : Option PyDateTime) (hv : r.is_valid = true)
    (hd : r.accept_date = Value.dt d) :
    ∃ b, is_within_time_frame r start stop = .ok b ∧
      (b = true ↔ (start = Option.none ∨
        ∃ s, start = Option.some s ∧ PyDateTime.lt d s = false ∧
          (stop = Option.none ∨
           ∃ e, stop = Option.some e ∧ PyDateTime.lt e d = false))) := by
  unfold is_within_time_frame
  cases start with
  | none =>
      refine ⟨true, rfl, ?_⟩
      simp
  | some s =>
      rw [hd]
      dsimp only
      cases hlt : PyDateTime.lt d s with
      | true =>
          refine ⟨false, rfl, iff_of_false (by simp) ?_⟩
          rintro (hcon | ⟨s', hs', hlt', _⟩)
          · cases hcon
          · injection hs' with hs'
            subst hs'
            rw [hlt] at hlt'
            cases hlt'
      | false =>
          cases stop with
          | none =>
              exact ⟨true, rfl,
                iff_of_true rfl (Or.inr ⟨s, rfl, hlt, Or.inl rfl⟩)⟩
          | some e =>
              dsimp only
              cases hlt2 : PyDateTime.lt e d with
              | true =>
                  refine ⟨false, rfl, iff_of_false (by simp) ?_⟩
                  rintro (hcon | ⟨s', hs', _, hcon | ⟨e', he', hlt2'⟩⟩)
                  · cases hcon
                  · cases hcon
                  · injection he' with he'
                    subst he'
                    rw [hlt2] at hlt2'
                    cases hlt2'
              | false =>
                  exact ⟨true, rfl,
                    iff_of_true rfl
                      (Or.inr ⟨s, rfl, hlt, Or.inr ⟨e, rfl, hlt2⟩⟩)⟩

/-- Witness for the amended C4 at the example record with a set start
bound below the accept time and no end bound. -/
theorem claim_C4_witness :
    (recOf exampleLine).is_valid = true ∧
    (recOf exampleLine).accept_date = Value.dt exAcceptDate ∧
    (∃ b, is_within_time_frame (recOf exampleLine) (Option.some dayBefore)
        Option.none = .ok b ∧
      (b = true ↔ (Option.some dayBefore = Option.none ∨
        ∃ s, Option.some dayBefore = Option.some s ∧
          PyDateTime.lt exAcceptDate s = false ∧
          ((Option.none : Option PyDateTime) = Option.none ∨
           ∃ e, (Option.none : Option PyDateTime) = Option.some e ∧
             PyDateTime.lt e exAcceptDate = false)))) :=
  ⟨rfl, rfl,
    claim_C4_within_time_frame (recOf exampleLine) exAcceptDate
      (Option.some dayBefore) Option.none rfl rfl⟩

end HaproxyLog
